import Mathlib

/-!
Verification development for the EvidenceCheck video-text consistency
checker.  The Python sources (`scoring.py`, `text_parser.py`,
`video_analyzer.py`) are shallowly embedded as executable Lean
definitions, and the specified properties are proved about those
definitions.  Definitions prefixed `spec` re-state the specification's
wording; the unprefixed definitions follow the source code.
-/

/-! ## Embedding of `scoring.py` -/

/-- A Python value stored in a `ClaimDetail`: the claim/video values are
integers for numeric claims and booleans for the weapon claim. -/
inductive CVal where
  | int (n : Int)
  | bool (b : Bool)
deriving DecidableEq, Repr

/-- The `claims` dictionary produced by `extract_claims`: each of the three
keys may be `None`. -/
structure SClaims where
  people : Option Int
  cars : Option Int
  weapon_present : Option Bool
deriving DecidableEq, Repr

/-- The `video_stats` dictionary as seen by `score_consistency`: any of the
three keys it reads may be absent (`video_stats.get(k, default)`). -/
structure SVideoStats where
  people : Option Int
  cars : Option Int
  weapon_present : Option Bool
deriving DecidableEq, Repr

/-- One entry of the `details` list built by `score_consistency`. -/
structure ClaimDetail where
  claim_type : String
  claim_value : CVal
  video_value : CVal
  result : String
  note : String
deriving DecidableEq, Repr

/-- The dictionary returned by `score_consistency`. -/
structure ScoreResult where
  score : Int
  details : List ClaimDetail
deriving DecidableEq, Repr

/-- The `if claims.get("people") is not None:` block of `score_consistency`
(and, with the other noun, the `cars` block): compares the claim against
`video_stats.get(key, 0)`, possibly decrements the running score and appends
one detail entry. -/
def scoreNumericClaim (ctype noun : String) (claim : Option Int) (video : Option Int)
    (acc : Int × List ClaimDetail) : Int × List ClaimDetail :=
  match claim with
  | none => acc
  | some c =>
    let v := video.getD 0
    let diff := (c - v).natAbs
    let srn : Int × String × String :=
      if diff = 0 then
        (acc.1, "supported", "Exact match: " ++ toString c ++ " " ++ noun ++ " detected")
      else if diff ≤ 1 then
        (acc.1 - 10, "partial", "Close match: claimed " ++ toString c ++
          ", detected " ++ toString v ++ " (difference: " ++ toString diff ++ ")")
      else
        (acc.1 - 30, "unsupported", "Mismatch: claimed " ++ toString c ++
          ", detected " ++ toString v ++ " (difference: " ++ toString diff ++ ")")
    (srn.1, acc.2 ++ [⟨ctype, CVal.int c, CVal.int v, srn.2.1, srn.2.2⟩])

/-- The `if claims.get("weapon_present") is not None:` block of
`score_consistency`: compares the boolean claim against
`video_stats.get("weapon_present", False)`. -/
def scoreWeaponClaim (claim : Option Bool) (video : Option Bool)
    (acc : Int × List ClaimDetail) : Int × List ClaimDetail :=
  match claim with
  | none => acc
  | some c =>
    let v := video.getD false
    let srn : Int × String × String :=
      if c = v then
        (acc.1, "supported",
          if c then "Weapon presence matches: both indicate weapon present"
          else "Weapon absence matches: both indicate no weapon")
      else
        (acc.1 - 40, "unsupported",
          if c && !v then
            "Mismatch: text claims weapon present, but no weapon detected in video"
          else
            "Mismatch: text claims no weapon, but weapon detected in video")
    (srn.1, acc.2 ++ [⟨"weapon", CVal.bool c, CVal.bool v, srn.2.1, srn.2.2⟩])

/-- `score_consistency` from `scoring.py`: the running `score` starts at 100,
each set claim field (people, then cars, then weapon) may subtract a penalty
and appends one detail entry, and the final score is clamped to `[0, 100]`. -/
def score_consistency (claims : SClaims) (video_stats : SVideoStats) : ScoreResult :=
  let acc :=
    scoreWeaponClaim claims.weapon_present video_stats.weapon_present
      (scoreNumericClaim "cars" "cars" claims.cars video_stats.cars
        (scoreNumericClaim "people" "people" claims.people video_stats.people
          (100, [])))
  ⟨max 0 (min 100 acc.1), acc.2⟩

/-! Specification-side restatement of the scoring rules, written from the
spec's words ("diff = 0 ⇒ supported, penalty 0; diff = 1 ⇒ partial,
penalty 10; diff ≥ 2 ⇒ unsupported, penalty 30; weapon equal ⇒ supported
penalty 0, unequal ⇒ unsupported penalty 40; score = clamp(100 − total)"). -/

/-- Spec wording: penalty for one numeric claim. -/
def specNumericPenalty (c d : Int) : Int :=
  if (c - d).natAbs = 0 then 0 else if (c - d).natAbs = 1 then 10 else 30

/-- Spec wording: result label for one numeric claim. -/
def specNumericResult (c d : Int) : String :=
  if (c - d).natAbs = 0 then "supported"
  else if (c - d).natAbs = 1 then "partial" else "unsupported"

/-- Spec wording: penalty for the weapon claim. -/
def specWeaponPenalty (c d : Bool) : Int := if c = d then 0 else 40

/-- Spec wording: result label for the weapon claim. -/
def specWeaponResult (c d : Bool) : String := if c = d then "supported" else "unsupported"

/-- Spec wording: total penalty over the set claim fields. -/
def specPenalty (cl : SClaims) (vs : SVideoStats) : Int :=
  (match cl.people with
    | some c => specNumericPenalty c (vs.people.getD 0)
    | none => 0)
  + (match cl.cars with
    | some c => specNumericPenalty c (vs.cars.getD 0)
    | none => 0)
  + (match cl.weapon_present with
    | some b => specWeaponPenalty b (vs.weapon_present.getD false)
    | none => 0)

/-- Spec wording: the note of a numeric detail states the claimed value, the
detected value and the absolute difference. -/
def specNumericNote (noun : String) (c v : Int) : String :=
  if (c - v).natAbs = 0 then "Exact match: " ++ toString c ++ " " ++ noun ++ " detected"
  else if (c - v).natAbs = 1 then "Close match: claimed " ++ toString c ++
    ", detected " ++ toString v ++ " (difference: " ++ toString (c - v).natAbs ++ ")"
  else "Mismatch: claimed " ++ toString c ++
    ", detected " ++ toString v ++ " (difference: " ++ toString (c - v).natAbs ++ ")"

/-- Spec wording: the note of the weapon detail. -/
def specWeaponNote (c v : Bool) : String :=
  if c = v then
    if c then "Weapon presence matches: both indicate weapon present"
    else "Weapon absence matches: both indicate no weapon"
  else if c && !v then "Mismatch: text claims weapon present, but no weapon detected in video"
  else "Mismatch: text claims no weapon, but weapon detected in video"

/-- Spec wording: the detail entry produced for a set numeric claim. -/
def specNumericDetail (ctype noun : String) (c v : Int) : ClaimDetail :=
  ⟨ctype, CVal.int c, CVal.int v, specNumericResult c v, specNumericNote noun c v⟩

/-- Spec wording: the detail entry produced for a set weapon claim. -/
def specWeaponDetail (c v : Bool) : ClaimDetail :=
  ⟨"weapon", CVal.bool c, CVal.bool v, specWeaponResult c v, specWeaponNote c v⟩

/-- Spec wording: the details list has one entry per set claim field, in the
order people, cars, weapon, each comparing the claim against the video value
(defaulting to 0 / false when the video side lacks the key). -/
def specDetails (cl : SClaims) (vs : SVideoStats) : List ClaimDetail :=
  (match cl.people with
    | some c => [specNumericDetail "people" "people" c (vs.people.getD 0)]
    | none => [])
  ++ (match cl.cars with
    | some c => [specNumericDetail "cars" "cars" c (vs.cars.getD 0)]
    | none => [])
  ++ (match cl.weapon_present with
    | some b => [specWeaponDetail b (vs.weapon_present.getD false)]
    | none => [])

/-- Spec wording: the full result, score clamped to `[0,100]` after
subtracting the total penalty from the 100 baseline. -/
def specScoreResult (cl : SClaims) (vs : SVideoStats) : ScoreResult :=
  ⟨max 0 (min 100 (100 - specPenalty cl vs)), specDetails cl vs⟩

/-! ## Embedding of `text_parser.py`

The regex patterns of `extract_claims` are fixed alternations of literal
words joined by `\b` (word boundary) and `\s+` (whitespace); they are
embedded as character-list matchers with Python's `re.search` semantics:
leftmost match, alternatives tried in order with backtracking, `\s+`
matching one or more whitespace characters. -/

/-- Python's `\s` class (ASCII): space, tab, newline, carriage return,
vertical tab, form feed. -/
def isPySpace (c : Char) : Bool :=
  c == ' ' || c == '\t' || c == '\n' || c == '\r' || c == '\x0b' || c == '\x0c'

/-- Python's `\w` class (ASCII): letters, digits, underscore. -/
def isWordChar (c : Char) : Bool := c.isAlphanum || c == '_'

/-- `word_to_number` from `text_parser.py`: the fixed word→integer table. -/
def word_to_number (word : String) : Option Nat :=
  [("zero", 0), ("one", 1), ("two", 2), ("three", 3), ("four", 4),
   ("five", 5), ("six", 6), ("seven", 7), ("eight", 8), ("nine", 9),
   ("ten", 10), ("eleven", 11), ("twelve", 12), ("thirteen", 13),
   ("fourteen", 14), ("fifteen", 15), ("sixteen", 16), ("seventeen", 17),
   ("eighteen", 18), ("nineteen", 19),
   ("twenty", 20)].lookup (String.mk (word.toList.map Char.toLower))

/-- The quantity-word alternation of the numeric patterns, in regex order
(the final `\d+` alternative is handled separately). -/
def numberAlts : List String :=
  ["one", "two", "three", "four", "five", "six", "seven", "eight", "nine",
   "ten", "eleven", "twelve", "thirteen", "fourteen", "fifteen", "sixteen",
   "seventeen", "eighteen", "nineteen", "twenty"]

/-- Noun alternations of the three `people_patterns`, in order (the second
`men` is in the source's alternation). -/
def people_patterns : List (List String) :=
  [["people", "persons", "person", "men", "women", "men", "individuals"],
   ["person"], ["people"]]

/-- Noun alternations of the three `car_patterns`, in order. -/
def car_patterns : List (List String) :=
  [["cars", "car", "vehicles", "vehicle", "trucks", "truck", "automobiles", "automobile"],
   ["car"], ["cars"]]

/-- `\s+ (noun₁|noun₂|…) \b` matched at `rest`: at least one whitespace
character, then a noun alternative, then a word boundary. -/
def nounAfter (nouns : List String) (rest : List Char) : Bool :=
  match rest with
  | [] => false
  | c :: _ =>
    isPySpace c &&
    nouns.any fun n =>
      n.toList.isPrefixOf (rest.dropWhile isPySpace) &&
      (match (rest.dropWhile isPySpace).drop n.length with
       | [] => true
       | d :: _ => !isWordChar d)

/-- The quantity group of a numeric pattern matched at position `s`
(word-boundary before `s` is checked by the caller): tries the word
alternatives in order, then a digit run, each followed by
`\s+ noun \b`; returns the text of group 1. -/
def quantityAt (nouns : List String) (s : List Char) : Option String :=
  match numberAlts.find? (fun w =>
      w.toList.isPrefixOf s && nounAfter nouns (s.drop w.length)) with
  | some w => some w
  | none =>
    let ds := s.takeWhile Char.isDigit
    if !ds.isEmpty && nounAfter nouns (s.drop ds.length) then some (String.mk ds) else none

/-- Word boundary `\b` before a position whose first character is a word
character: the previous character (if any) is not a word character. -/
def okBefore : Option Char → Bool
  | none => true
  | some c => !isWordChar c

/-- `re.search` for one numeric pattern: scan positions left to right,
return group 1 of the first (leftmost) match. -/
def searchQuantity (nouns : List String) : Option Char → List Char → Option String
  | _, [] => none
  | prev, c :: rest =>
    match (if okBefore prev then quantityAt nouns (c :: rest) else none) with
    | some g => some g
    | none => searchQuantity nouns (some c) rest

/-- Digit-run to number, as Python's `int()` on a decimal string. -/
def digitsToNat (l : List Char) : Nat := l.foldl (fun a c => a * 10 + (c.toNat - 48)) 0

/-- Quantity-token resolution in `extract_claims`: `word_to_number` first,
then `int(number_str)`. -/
def resolveQuantity (g : String) : Option Nat :=
  match word_to_number g with
  | some n => some n
  | none =>
    if !g.toList.isEmpty && g.toList.all Char.isDigit then some (digitsToNat g.toList)
    else none

/-- The `for pattern in …_patterns:` loop of `extract_claims`: first pattern
whose leftmost match resolves to a number wins; an unresolvable quantity
falls through to the next pattern (`continue`). -/
def extractNumber (patterns : List (List String)) (t : List Char) : Option Nat :=
  match patterns with
  | [] => none
  | ns :: rest =>
    match searchQuantity ns none t with
    | some g =>
      match resolveQuantity g with
      | some n => some n
      | none => extractNumber rest t
    | none => extractNumber rest t

/-- The `weapon_positive_patterns` alternation of `extract_claims`. -/
def weapon_positive_keywords : List String :=
  ["gun", "guns", "weapon", "weapons", "firearm", "firearms", "knife", "knives",
   "pistol", "pistols", "rifle", "rifles", "handgun", "handguns"]

/-- The weapon-keyword alternation used inside `weapon_negative_patterns`
(note: a strict subset of `weapon_positive_keywords`). -/
def weapon_negative_keywords : List String :=
  ["gun", "guns", "weapon", "weapons", "firearm", "firearms", "knife", "knives"]

/-- The first group of the first negative pattern: `(no|without|not|none)`. -/
def negation_words : List String := ["no", "without", "not", "none"]

/-- The second group of the second negative pattern: `(not|absent|missing)`. -/
def postnegation_words : List String := ["not", "absent", "missing"]

/-- `\b (kw₁|kw₂|…) \b` matched at position `s` (boundary before `s`
checked by the caller). -/
def keywordAt (kws : List String) (s : List Char) : Bool :=
  kws.any fun k =>
    k.toList.isPrefixOf s &&
    (match s.drop k.length with
     | [] => true
     | d :: _ => !isWordChar d)

/-- `\b (w₁|w₂|…) \s+ (k₁|k₂|…)` matched at position `s` (boundary before
`s` checked by the caller; no boundary after the second group, exactly as
in the source's negative patterns). -/
def seqAt (first second : List String) (s : List Char) : Bool :=
  first.any fun w =>
    w.toList.isPrefixOf s &&
    (match s.drop w.toList.length with
     | [] => false
     | c :: rest =>
       isPySpace c &&
       second.any fun k => k.toList.isPrefixOf ((c :: rest).dropWhile isPySpace))

/-- `re.search` for a boolean pattern: true iff it matches at some
position. -/
def searchB (p : List Char → Bool) : Option Char → List Char → Bool
  | _, [] => false
  | prev, c :: rest => (okBefore prev && p (c :: rest)) || searchB p (some c) rest

/-- `has_positive` of `extract_claims`. -/
def hasPositiveWeapon (t : List Char) : Bool :=
  searchB (keywordAt weapon_positive_keywords) none t

/-- `has_negative` of `extract_claims`: either negative pattern matches. -/
def hasNegativeWeapon (t : List Char) : Bool :=
  searchB (seqAt negation_words weapon_negative_keywords) none t
  || searchB (seqAt weapon_negative_keywords postnegation_words) none t

/-- The negation predicate asserted by the specification's claim, which
names the full `weapon_positive_keywords` list (including pistol(s),
rifle(s), handgun(s)) as the keywords of both negation patterns. -/
def specClaimNegation (t : List Char) : Bool :=
  searchB (seqAt negation_words weapon_positive_keywords) none t
  || searchB (seqAt weapon_positive_keywords postnegation_words) none t

/-- The dictionary returned by `extract_claims`. -/
structure TClaims where
  people : Option Nat
  cars : Option Nat
  weapon_present : Option Bool
deriving DecidableEq, Repr

/-- `extract_claims` from `text_parser.py`: empty/whitespace-only text
yields all-unset claims; otherwise the text is lowercased, the numeric
pattern loops run for people and cars, and the weapon field is set from
`has_positive`/`has_negative` with negation winning. -/
def extract_claims (text : String) : TClaims :=
  if text.toList.all isPySpace then ⟨none, none, none⟩
  else
    let t := text.toList.map Char.toLower
    let has_positive := hasPositiveWeapon t
    let has_negative := hasNegativeWeapon t
    ⟨extractNumber people_patterns t,
     extractNumber car_patterns t,
     if has_positive && !has_negative then some true
     else if has_negative then some false
     else none⟩

/-! ## Embedding of `video_analyzer.py`

`analyze_video` is embedded over an explicit environment: whether the path
exists, whether the capture opens, the native fps, and — since the detector
is an opaque collaborator — the detector's result for each raw frame of the
(deterministic, single-pass) source, `Except.error` modelling a raised
exception.  The annotated frames are modelled by their raw frame indices.
The second component of the result records whether a capture handle is
still open when the function exits (the code has no `try/finally`). -/

/-- One detection: a COCO class id and a confidence. -/
structure Detection where
  cls : Nat
  conf : ℚ
deriving DecidableEq, Repr

/-- The exceptions `analyze_video` can raise: `FileNotFoundError`,
`ValueError` (with its message), or a propagated detector exception. -/
inductive AnalyzeError where
  | notFound
  | invalidVideo (msg : String)
  | detectorFailure
deriving DecidableEq, Repr

/-- The environment `analyze_video` runs in. -/
structure VideoEnv where
  pathExists : Bool
  opens : Bool
  fps : ℚ
  frames : List (Except Unit (List Detection))

/-- The dictionary returned by `analyze_video` (frames as raw indices). -/
structure VideoStatsR where
  people : Nat
  cars : Nat
  weapon_present : Bool
  frames : List Nat
deriving DecidableEq, Repr

/-- `person_class_ids` from `video_analyzer.py`. -/
def person_class_ids : List Nat := [0]

/-- `vehicle_class_ids`: car, motorcycle, bus, truck. -/
def vehicle_class_ids : List Nat := [2, 3, 5, 7]

/-- `weapon_class_ids`: knife. -/
def weapon_class_ids : List Nat := [76]

/-- Per-frame counters of the detection loop. -/
structure FrameCounts where
  people : Nat
  cars : Nat
  weapon : Bool
deriving DecidableEq, Repr

/-- The `for box in detections.boxes:` body: skip confidences below 0.5,
then count by class via the `if/elif` chain. -/
def countStep (acc : FrameCounts) (d : Detection) : FrameCounts :=
  if d.conf < 0.5 then acc
  else if d.cls ∈ person_class_ids then { acc with people := acc.people + 1 }
  else if d.cls ∈ vehicle_class_ids then { acc with cars := acc.cars + 1 }
  else if d.cls ∈ weapon_class_ids then { acc with weapon := true }
  else acc

/-- The per-frame counting pass of `analyze_video`. -/
def countFrame (dets : List Detection) : FrameCounts := dets.foldl countStep ⟨0, 0, false⟩

/-- The mutable loop state of `analyze_video`. -/
structure LoopState where
  max_people : Nat
  max_cars : Nat
  weapon_present : Bool
  frames_to_save : List Nat
deriving DecidableEq, Repr

/-- The `while True:` frame loop: frames at 0-based indices that are
multiples of `frame_interval` are run through the detector, maxima and the
weapon flag are updated and the annotated frame (its index) appended; a
detector exception aborts the loop. -/
def runLoop (interval : Nat) : Nat → LoopState → List (Except Unit (List Detection)) →
    Except Unit LoopState
  | _, st, [] => Except.ok st
  | idx, st, f :: rest =>
    if idx % interval = 0 then
      match f with
      | Except.error e => Except.error e
      | Except.ok dets =>
        let c := countFrame dets
        runLoop interval (idx + 1)
          ⟨max st.max_people c.people, max st.max_cars c.cars,
           st.weapon_present || c.weapon, st.frames_to_save ++ [idx]⟩ rest
    else
      runLoop interval (idx + 1) st rest

/-- Python's `int()` on a rational: truncation toward zero. -/
def pyTruncQ (q : ℚ) : Int := Int.tdiv q.num q.den

/-- `analyze_video` from `video_analyzer.py`.  Returns the raised exception
or the stats, paired with a flag telling whether some capture handle is
still open at exit (`cap.release()` not executed). -/
def analyze_video (env : VideoEnv) (frame_rate : Int) : Except AnalyzeError VideoStatsR × Bool :=
  if !env.pathExists then
    (Except.error AnalyzeError.notFound, false)
  else if !env.opens then
    (Except.error (AnalyzeError.invalidVideo "Could not open video file"), false)
  else if env.fps ≤ 0 then
    (Except.error (AnalyzeError.invalidVideo "Invalid video: unable to determine FPS"), true)
  else
    let frame_interval : Nat := (max 1 (pyTruncQ (env.fps / (frame_rate : ℚ)))).toNat
    match runLoop frame_interval 0 ⟨0, 0, false, []⟩ env.frames with
    | Except.error _ => (Except.error AnalyzeError.detectorFailure, true)
    | Except.ok st =>
      if 0 < st.frames_to_save.length then
        let annotated_frames :=
          if st.frames_to_save.length ≤ 3 then st.frames_to_save
          else [st.frames_to_save.getD 0 0,
                st.frames_to_save.getD (st.frames_to_save.length / 2) 0,
                st.frames_to_save.getD (st.frames_to_save.length - 1) 0]
        (Except.ok ⟨st.max_people, st.max_cars, st.weapon_present, annotated_frames⟩, false)
      else
        -- fallback: re-open the source and read its first raw frame
        match env.frames with
        | [] => (Except.ok ⟨st.max_people, st.max_cars, st.weapon_present, []⟩, false)
        | Except.error _ :: _ => (Except.error AnalyzeError.detectorFailure, true)
        | Except.ok _ :: _ =>
          (Except.ok ⟨st.max_people, st.max_cars, st.weapon_present, [0]⟩, false)

/-- Spec wording: a detection counts only with confidence ≥ 0.5. -/
def highConf (d : Detection) : Bool := decide ((0.5 : ℚ) ≤ d.conf)

/-- Spec wording: per-frame count of qualifying person detections. -/
def specPeopleCount (dets : List Detection) : Nat :=
  (dets.filter fun d => highConf d && decide (d.cls ∈ person_class_ids)).length

/-- Spec wording: per-frame count of qualifying vehicle detections. -/
def specCarCount (dets : List Detection) : Nat :=
  (dets.filter fun d => highConf d && decide (d.cls ∈ vehicle_class_ids)).length

/-- Spec wording: whether a qualifying weapon detection is present. -/
def specWeaponFlag (dets : List Detection) : Bool :=
  dets.any fun d => highConf d && decide (d.cls ∈ weapon_class_ids)

/-- Maximum of a list of naturals (0 for the empty list). -/
def listMax (l : List Nat) : Nat := l.foldr max 0

/-- The frames the sampler processes, paired with their 0-based indices
(counting from `idx`): exactly those at an index that is a multiple of the
interval, in ascending order. -/
def procFrames (interval idx : Nat) (dets : List (List Detection)) :
    List (Nat × List Detection) :=
  (List.enumFrom idx dets).filter fun p => p.1 % interval = 0

/-- Spec wording: representative-frame selection over the saved frames. -/
def specSelect (saved : List Nat) : List Nat :=
  if saved.length ≤ 3 then saved
  else [saved.getD 0 0, saved.getD (saved.length / 2) 0, saved.getD (saved.length - 1) 0]

theorem scoreNumericClaim_eq (ctype noun : String) (claim video : Option Int)
    (acc : Int × List ClaimDetail) :
    scoreNumericClaim ctype noun claim video acc
      = (acc.1 - (match claim with
            | some c => specNumericPenalty c (video.getD 0)
            | none => 0),
         acc.2 ++ (match claim with
            | some c => [specNumericDetail ctype noun c (video.getD 0)]
            | none => [])) := by
  cases claim with
  | none => simp [scoreNumericClaim]
  | some c =>
    simp only [scoreNumericClaim, specNumericDetail, specNumericPenalty, specNumericResult,
      specNumericNote]
    split_ifs <;> simp <;> omega

theorem scoreWeaponClaim_eq (claim video : Option Bool) (acc : Int × List ClaimDetail) :
    scoreWeaponClaim claim video acc
      = (acc.1 - (match claim with
            | some c => specWeaponPenalty c (video.getD false)
            | none => 0),
         acc.2 ++ (match claim with
            | some c => [specWeaponDetail c (video.getD false)]
            | none => [])) := by
  cases claim with
  | none => simp [scoreWeaponClaim]
  | some c =>
    simp only [scoreWeaponClaim, specWeaponDetail, specWeaponPenalty, specWeaponResult,
      specWeaponNote]
    split_ifs <;> simp

/-- Master characterization: `score_consistency` computes exactly the
spec-side result. -/
theorem score_consistency_eq (cl : SClaims) (vs : SVideoStats) :
    score_consistency cl vs = specScoreResult cl vs := by
  simp only [score_consistency, scoreNumericClaim_eq, scoreWeaponClaim_eq, specScoreResult,
    specPenalty, specDetails, ScoreResult.mk.injEq]
  refine ⟨by congr 1; congr 1; omega, by simp [List.append_assoc]⟩

/-- C1: `score_consistency` starts from 100 and, for each set claim field,
applies exactly the documented penalty: a numeric claim with
`diff = |claim − video|` yields `supported`/penalty 0 at `diff = 0`,
`partial`/penalty 10 at `diff = 1`, `unsupported`/penalty 30 at `diff ≥ 2`;
a set weapon claim yields `supported`/penalty 0 on equal booleans and
`unsupported`/penalty 40 on unequal booleans. -/
theorem scoring_penalty_rules (cl : SClaims) (vs : SVideoStats) :
    (score_consistency cl vs).score = max 0 (min 100 (100 - specPenalty cl vs)) ∧
    (∀ c d : Int,
      ((c - d).natAbs = 0 →
        specNumericPenalty c d = 0 ∧ specNumericResult c d = "supported") ∧
      ((c - d).natAbs = 1 →
        specNumericPenalty c d = 10 ∧ specNumericResult c d = "partial") ∧
      (2 ≤ (c - d).natAbs →
        specNumericPenalty c d = 30 ∧ specNumericResult c d = "unsupported")) ∧
    (∀ b v : Bool,
      (b = v → specWeaponPenalty b v = 0 ∧ specWeaponResult b v = "supported") ∧
      (b ≠ v → specWeaponPenalty b v = 40 ∧ specWeaponResult b v = "unsupported")) ∧
    (∀ c, cl.people = some c →
      specNumericDetail "people" "people" c (vs.people.getD 0)
        ∈ (score_consistency cl vs).details) ∧
    (∀ c, cl.cars = some c →
      specNumericDetail "cars" "cars" c (vs.cars.getD 0)
        ∈ (score_consistency cl vs).details) ∧
    (∀ b, cl.weapon_present = some b →
      specWeaponDetail b (vs.weapon_present.getD false)
        ∈ (score_consistency cl vs).details) := by
  rw [score_consistency_eq]
  refine ⟨rfl, ?_, ?_, ?_, ?_, ?_⟩
  · intro c d
    refine ⟨fun h => ?_, fun h => ?_, fun h => ?_⟩ <;>
      · simp only [specNumericPenalty, specNumericResult]
        split_ifs <;> simp_all
  · intro b v
    refine ⟨fun h => ?_, fun h => ?_⟩ <;> simp [specWeaponPenalty, specWeaponResult, h]
  · intro c hc
    simp [specScoreResult, specDetails, hc]
  · intro c hc
    simp [specScoreResult, specDetails, hc]
  · intro b hb
    simp [specScoreResult, specDetails, hb]

theorem scoring_penalty_rules_witness :
    (specNumericPenalty 5 3 = 30 ∧ specNumericResult 5 3 = "unsupported") ∧
    (specWeaponPenalty true false = 40 ∧ specWeaponResult true false = "unsupported") ∧
    specNumericDetail "people" "people" 3 2
      ∈ (score_consistency ⟨some 3, some 1, some true⟩ ⟨some 2, some 1, some false⟩).details ∧
    specNumericDetail "cars" "cars" 1 1
      ∈ (score_consistency ⟨some 3, some 1, some true⟩ ⟨some 2, some 1, some false⟩).details ∧
    specWeaponDetail true false
      ∈ (score_consistency ⟨some 3, some 1, some true⟩ ⟨some 2, some 1, some false⟩).details :=
  ⟨((scoring_penalty_rules ⟨some 3, some 1, some true⟩
      ⟨some 2, some 1, some false⟩).2.1 5 3).2.2 (by decide),
   ((scoring_penalty_rules ⟨some 3, some 1, some true⟩
      ⟨some 2, some 1, some false⟩).2.2.1 true false).2 (by decide),
   (scoring_penalty_rules ⟨some 3, some 1, some true⟩
      ⟨some 2, some 1, some false⟩).2.2.2.1 3 rfl,
   (scoring_penalty_rules ⟨some 3, some 1, some true⟩
      ⟨some 2, some 1, some false⟩).2.2.2.2.1 1 rfl,
   (scoring_penalty_rules ⟨some 3, some 1, some true⟩
      ⟨some 2, some 1, some false⟩).2.2.2.2.2 true rfl⟩

/-- C2: the returned score is always in `[0, 100]`; in particular a people
mismatch (−30), a cars mismatch (−30) and a weapon mismatch (−40) from the
100 baseline yield exactly 0, never a negative score. -/
theorem score_always_clamped (cl : SClaims) (vs : SVideoStats) :
    0 ≤ (score_consistency cl vs).score ∧ (score_consistency cl vs).score ≤ 100 ∧
    (score_consistency ⟨some 3, some 3, some true⟩ ⟨some 0, some 0, some false⟩).score = 0 := by
  rw [score_consistency_eq]
  refine ⟨?_, ?_, by decide⟩
  · simp only [specScoreResult]
    omega
  · simp only [specScoreResult]
    omega

/-- C5: a detail entry exists for a claim type iff that claim field is set
(independently of the video side), the entries appear in the fixed order
people, cars, weapon (hence at most 3), and with no set claim field the
details are empty and the score is exactly 100. -/
theorem details_iff_claims (cl : SClaims) (vs : SVideoStats) :
    ((score_consistency cl vs).details.map (fun e => e.claim_type)
      = (match cl.people with | some _ => ["people"] | none => [])
        ++ (match cl.cars with | some _ => ["cars"] | none => [])
        ++ (match cl.weapon_present with | some _ => ["weapon"] | none => [])) ∧
    ((∃ e ∈ (score_consistency cl vs).details, e.claim_type = "people") ↔ cl.people ≠ none) ∧
    ((∃ e ∈ (score_consistency cl vs).details, e.claim_type = "cars") ↔ cl.cars ≠ none) ∧
    ((∃ e ∈ (score_consistency cl vs).details, e.claim_type = "weapon")
      ↔ cl.weapon_present ≠ none) ∧
    (score_consistency cl vs).details.length ≤ 3 ∧
    (cl.people = none → cl.cars = none → cl.weapon_present = none →
      (score_consistency cl vs).details = [] ∧ (score_consistency cl vs).score = 100) := by
  rw [score_consistency_eq]
  obtain ⟨p, c, w⟩ := cl
  cases p <;> cases c <;> cases w <;>
    simp [specScoreResult, specDetails, specPenalty, specNumericDetail, specWeaponDetail]

theorem details_iff_claims_witness :
    (score_consistency ⟨none, none, none⟩ ⟨some 1, none, some true⟩).details = [] ∧
    (score_consistency ⟨none, none, none⟩ ⟨some 1, none, some true⟩).score = 100 :=
  (details_iff_claims ⟨none, none, none⟩ ⟨some 1, none, some true⟩).2.2.2.2.2 rfl rfl rfl

/-- C10: a set claim field with a missing video-side key is compared against
the defaults 0 (numeric) and false (weapon): the result is identical to the
one with explicit default video values, and a ClaimDetail is produced as
usual. -/
theorem missing_video_keys_default (cl : SClaims) :
    score_consistency cl ⟨none, none, none⟩
      = score_consistency cl ⟨some 0, some 0, some false⟩ ∧
    (∀ c, cl.people = some c →
      specNumericDetail "people" "people" c 0
        ∈ (score_consistency cl ⟨none, none, none⟩).details) ∧
    (∀ c, cl.cars = some c →
      specNumericDetail "cars" "cars" c 0
        ∈ (score_consistency cl ⟨none, none, none⟩).details) ∧
    (∀ b, cl.weapon_present = some b →
      specWeaponDetail b false ∈ (score_consistency cl ⟨none, none, none⟩).details) := by
  simp only [score_consistency_eq]
  refine ⟨rfl, ?_, ?_, ?_⟩
  · intro c hc
    simp [specScoreResult, specDetails, hc]
  · intro c hc
    simp [specScoreResult, specDetails, hc]
  · intro b hb
    simp [specScoreResult, specDetails, hb]

theorem missing_video_keys_default_witness :
    specNumericDetail "people" "people" 2 0
      ∈ (score_consistency ⟨some 2, some 0, some true⟩ ⟨none, none, none⟩).details ∧
    specNumericDetail "cars" "cars" 0 0
      ∈ (score_consistency ⟨some 2, some 0, some true⟩ ⟨none, none, none⟩).details ∧
    specWeaponDetail true false
      ∈ (score_consistency ⟨some 2, some 0, some true⟩ ⟨none, none, none⟩).details :=
  ⟨(missing_video_keys_default ⟨some 2, some 0, some true⟩).2.1 2 rfl,
   (missing_video_keys_default ⟨some 2, some 0, some true⟩).2.2.1 0 rfl,
   (missing_video_keys_default ⟨some 2, some 0, some true⟩).2.2.2 true rfl⟩

set_option maxHeartbeats 1000000 in
/-- C3 counterexample: on "no pistols were seen" the negation pattern as
stated by the claim (with the full 14-keyword list) matches, yet
`extract_claims` sets `weapon_present = true`, because the source's
negative patterns only contain the 8 keywords gun/guns/weapon/weapons/
firearm/firearms/knife/knives. -/
theorem weapon_negation_counterexample :
    specClaimNegation (("no pistols were seen").toList.map Char.toLower) = true ∧
    (extract_claims "no pistols were seen").weapon_present = some true := by
  decide

/-- C3 (amended): `extract_claims` sets `weapon_present = false` whenever a
negation pattern matches, where the negation keyword list is only
gun/guns/weapon/weapons/firearm/firearms/knife/knives (negation wins even
when a positive keyword also appears); it sets `weapon_present = true` when
a positive keyword (full 14-word list) appears with no negation match, and
leaves the field unset otherwise (also for empty/whitespace-only text). -/
theorem weapon_field_rule (text : String) :
    (extract_claims text).weapon_present
      = (if text.toList.all isPySpace then none
         else if hasNegativeWeapon (text.toList.map Char.toLower) then some false
         else if hasPositiveWeapon (text.toList.map Char.toLower) then some true
         else none) := by
  simp only [extract_claims]
  cases hA : text.toList.all isPySpace <;>
    cases hP : hasPositiveWeapon (text.toList.map Char.toLower) <;>
      cases hN : hasNegativeWeapon (text.toList.map Char.toLower) <;>
        simp [hA, hP, hN]

set_option maxHeartbeats 1000000 in
/-- C9: the documented example inputs map to the documented outputs:
the first example yields people = 3, cars = 2, weapon_present = false;
in the second, "single" is outside the quantity vocabulary so the cars
field stays unset. -/
theorem documented_extraction_examples :
    extract_claims
        "There were three people and two cars in the parking lot. No weapons were present."
      = ⟨some 3, some 2, some false⟩ ∧
    (extract_claims "A single car was parked with no people around.").cars = none := by
  decide

theorem class_ids_disjoint (n : Nat) :
    (n ∈ person_class_ids → n ∉ vehicle_class_ids ∧ n ∉ weapon_class_ids) ∧
    (n ∈ vehicle_class_ids → n ∉ weapon_class_ids) := by
  simp only [person_class_ids, vehicle_class_ids, weapon_class_ids, List.mem_cons,
    List.mem_singleton, List.not_mem_nil, or_false]
  omega

theorem countStep_eq (acc : FrameCounts) (d : Detection) :
    countStep acc d =
      ⟨acc.people + (if highConf d && decide (d.cls ∈ person_class_ids) then 1 else 0),
       acc.cars + (if highConf d && decide (d.cls ∈ vehicle_class_ids) then 1 else 0),
       acc.weapon || (highConf d && decide (d.cls ∈ weapon_class_ids))⟩ := by
  by_cases hc : d.conf < 0.5
  · have h1 : highConf d = false := by simp [highConf, hc, not_le.mpr hc]
    simp [countStep, hc, h1]
  · have h1 : highConf d = true := by simp [highConf, not_lt.mp hc]
    by_cases hp : d.cls ∈ person_class_ids
    · obtain ⟨hv, hw⟩ := (class_ids_disjoint d.cls).1 hp
      simp [countStep, hc, h1, hp, hv, hw]
    · by_cases hv : d.cls ∈ vehicle_class_ids
      · have hw := (class_ids_disjoint d.cls).2 hv
        simp [countStep, hc, h1, hp, hv, hw]
      · by_cases hw : d.cls ∈ weapon_class_ids
        · simp [countStep, hc, h1, hp, hv, hw]
        · simp [countStep, hc, h1, hp, hv, hw]

theorem countFrame_go : ∀ (dets : List Detection) (acc : FrameCounts),
    dets.foldl countStep acc =
      ⟨acc.people + specPeopleCount dets, acc.cars + specCarCount dets,
       acc.weapon || specWeaponFlag dets⟩
  | [], acc => by simp [specPeopleCount, specCarCount, specWeaponFlag]
  | d :: ds, acc => by
    rw [List.foldl_cons, countFrame_go ds, countStep_eq]
    simp only [specPeopleCount, specCarCount, specWeaponFlag, List.filter_cons, List.any_cons,
      FrameCounts.mk.injEq]
    refine ⟨?_, ?_, by rw [Bool.or_assoc]⟩ <;>
      split_ifs <;> first
        | omega
        | (simp only [List.length_cons]; omega)

theorem countFrame_eq (dets : List Detection) :
    countFrame dets = ⟨specPeopleCount dets, specCarCount dets, specWeaponFlag dets⟩ := by
  unfold countFrame
  rw [countFrame_go]
  simp

theorem procFrames_nil (interval idx : Nat) : procFrames interval idx [] = [] := rfl

theorem procFrames_cons (interval idx : Nat) (d : List Detection) (ds : List (List Detection)) :
    procFrames interval idx (d :: ds)
      = (if idx % interval = 0 then [(idx, d)] else []) ++ procFrames interval (idx + 1) ds := by
  simp only [procFrames, List.enumFrom_cons, List.filter_cons]
  split_ifs <;> simp_all

theorem runLoop_map_ok (interval : Nat) :
    ∀ (dets : List (List Detection)) (idx : Nat) (st : LoopState),
    runLoop interval idx st (dets.map Except.ok)
      = Except.ok
          ⟨max st.max_people (listMax ((procFrames interval idx dets).map fun p => specPeopleCount p.2)),
           max st.max_cars (listMax ((procFrames interval idx dets).map fun p => specCarCount p.2)),
           st.weapon_present || ((procFrames interval idx dets).any fun p => specWeaponFlag p.2),
           st.frames_to_save ++ (procFrames interval idx dets).map Prod.fst⟩
  | [], idx, st => by simp [runLoop, procFrames_nil, listMax]
  | d :: ds, idx, st => by
    rw [List.map_cons]
    by_cases h : idx % interval = 0
    · rw [runLoop, if_pos h, countFrame_eq, runLoop_map_ok interval ds (idx + 1), procFrames_cons,
        if_pos h]
      simp [listMax, Nat.max_assoc, Bool.or_assoc, List.append_assoc]
    · rw [runLoop, if_neg h, runLoop_map_ok interval ds (idx + 1), procFrames_cons, if_neg h]
      simp

theorem analyze_video_map_ok (dets : List (List Detection)) (fps : ℚ) (rate : Int)
    (hfps : 0 < fps) :
    analyze_video ⟨true, true, fps, dets.map Except.ok⟩ rate
      = (Except.ok
          ⟨listMax ((procFrames ((max 1 (pyTruncQ (fps / (rate : ℚ)))).toNat) 0 dets).map
                fun p => specPeopleCount p.2),
           listMax ((procFrames ((max 1 (pyTruncQ (fps / (rate : ℚ)))).toNat) 0 dets).map
                fun p => specCarCount p.2),
           (procFrames ((max 1 (pyTruncQ (fps / (rate : ℚ)))).toNat) 0 dets).any
                fun p => specWeaponFlag p.2,
           specSelect ((procFrames ((max 1 (pyTruncQ (fps / (rate : ℚ)))).toNat) 0 dets).map
                Prod.fst)⟩, false) := by
  have hn : ¬ fps ≤ 0 := not_le.mpr hfps
  cases dets with
  | nil =>
    simp [analyze_video, hn, procFrames_nil, listMax, specSelect, runLoop]
  | cons d ds =>
    have hpf : procFrames ((max 1 (pyTruncQ (fps / (rate : ℚ)))).toNat) 0 (d :: ds)
        = (0, d) :: procFrames ((max 1 (pyTruncQ (fps / (rate : ℚ)))).toNat) 1 ds := by
      rw [procFrames_cons]
      simp [Nat.zero_mod]
    simp only [analyze_video, Bool.not_true, Bool.false_eq_true, if_false, hn,
      runLoop_map_ok ((max 1 (pyTruncQ (fps / (rate : ℚ)))).toNat) (d :: ds) 0]
    rw [hpf]
    simp [specSelect]

theorem pyTruncQ_eq_floor (q : ℚ) (h : 0 ≤ q) : pyTruncQ q = ⌊q⌋ := by
  rw [pyTruncQ, Rat.floor_def]
  exact Int.tdiv_eq_ediv (Rat.num_nonneg.mpr h) (Int.natCast_nonneg q.den)

theorem map_fst_filter_zip {β : Type} (p : Nat → Bool) :
    ∀ (l1 : List Nat) (l2 : List β), l1.length = l2.length →
      ((l1.zip l2).filter fun q => p q.1).map Prod.fst = l1.filter p
  | [], [], _ => rfl
  | [], _ :: _, h => by simp at h
  | _ :: _, [], h => by simp at h
  | a :: as, b :: bs, h => by
    simp only [List.zip_cons_cons, List.filter_cons]
    by_cases hp : p a = true <;>
      simp [hp, map_fst_filter_zip p as bs (by simp only [List.length_cons] at h; omega)]

theorem procFrames_map_fst (interval : Nat) (dets : List (List Detection)) :
    (procFrames interval 0 dets).map Prod.fst
      = (List.range dets.length).filter fun i => i % interval = 0 := by
  unfold procFrames
  rw [show List.enumFrom 0 dets = dets.enum from rfl, List.enum_eq_zip_range]
  exact map_fst_filter_zip (fun i => decide (i % interval = 0)) _ _ (List.length_range _)

/-- Exhaustive classification of the exit paths of `analyze_video` and the
state of the capture handle on each. -/
theorem analyze_video_classify (env : VideoEnv) (rate : Int) :
    (env.pathExists = false ∧ analyze_video env rate = (Except.error AnalyzeError.notFound, false))
    ∨ (env.pathExists = true ∧ env.opens = false ∧
        analyze_video env rate
          = (Except.error (AnalyzeError.invalidVideo "Could not open video file"), false))
    ∨ (env.pathExists = true ∧ env.opens = true ∧ env.fps ≤ 0 ∧
        analyze_video env rate
          = (Except.error (AnalyzeError.invalidVideo "Invalid video: unable to determine FPS"),
             true))
    ∨ (env.pathExists = true ∧ env.opens = true ∧ ¬ env.fps ≤ 0 ∧
        (((analyze_video env rate).2 = true ∧
            (analyze_video env rate).1 = Except.error AnalyzeError.detectorFailure)
         ∨ ((analyze_video env rate).2 = false ∧
            ∃ st, (analyze_video env rate).1 = Except.ok st))) := by
  obtain ⟨pe, op, fps, frames⟩ := env
  cases pe <;> cases op <;> by_cases hf : fps ≤ 0 <;> simp [analyze_video, hf]
  rcases hr : runLoop (1 ⊔ pyTruncQ (fps / (rate : ℚ))).toNat 0 ⟨0, 0, false, []⟩ frames with e | st
  · simp [hr]
  · by_cases hl : 0 < st.frames_to_save.length
    · simp [hr, hl]
    · rcases frames with _ | ⟨f, rest⟩
      · simp [hr, hl]
      · rcases f with e | dts
        · simp [hr, hl]
        · simp [hr, hl]

/-- C8: `analyze_video` fails with `NotFound` exactly when the path does not
exist, fails with `InvalidVideo` exactly when the path exists but the source
cannot be opened or the native frame rate is non-positive, and the
`NotFound` check precedes any attempt to open the source (a missing path
yields `NotFound` with no capture ever opened, whatever the other
parameters). -/
theorem error_paths (env : VideoEnv) (rate : Int) :
    ((analyze_video env rate).1 = Except.error AnalyzeError.notFound ↔ env.pathExists = false) ∧
    ((∃ msg, (analyze_video env rate).1 = Except.error (AnalyzeError.invalidVideo msg))
      ↔ env.pathExists = true ∧ (env.opens = false ∨ env.fps ≤ 0)) ∧
    (env.pathExists = false →
      analyze_video env rate = (Except.error AnalyzeError.notFound, false)) := by
  rcases analyze_video_classify env rate with ⟨hp, he⟩ | ⟨hp, ho, he⟩ | ⟨hp, ho, hf, he⟩ |
    ⟨hp, ho, hf, ⟨h2, h1⟩ | ⟨h2, st, h1⟩⟩
  · simp [he, hp]
  · simp [he, hp, ho]
  · simp [he, hp, ho, hf]
  · simp [h1, hp, ho, hf]
  · simp [h1, hp, ho, hf]

theorem error_paths_witness :
    analyze_video ⟨false, true, 30, []⟩ 1 = (Except.error AnalyzeError.notFound, false) :=
  (error_paths ⟨false, true, 30, []⟩ 1).2.2 rfl

/-- C4 (amended): `analyze_video` releases the capture on normal
completion, but when the detector raises an exception during per-frame
processing the exception propagates as `DetectorFailure` with the capture
still open (there is no `try/finally` around the loop). -/
theorem release_on_normal_completion (env : VideoEnv) (rate : Int) :
    (∀ st, (analyze_video env rate).1 = Except.ok st → (analyze_video env rate).2 = false) ∧
    ((analyze_video env rate).1 = Except.error AnalyzeError.detectorFailure →
      (analyze_video env rate).2 = true) := by
  rcases analyze_video_classify env rate with ⟨hp, he⟩ | ⟨hp, ho, he⟩ | ⟨hp, ho, hf, he⟩ |
    ⟨hp, ho, hf, ⟨h2, h1⟩ | ⟨h2, st, h1⟩⟩
  · simp [he]
  · simp [he]
  · simp [he]
  · simp [h1, h2]
  · simp [h1, h2]

theorem release_on_normal_completion_witness :
    (analyze_video ⟨true, true, 30, [Except.ok []]⟩ 1).2 = false ∧
    (analyze_video ⟨true, true, 30, [Except.error ()]⟩ 1).2 = true :=
  ⟨(release_on_normal_completion ⟨true, true, 30, [Except.ok []]⟩ 1).1 ⟨0, 0, false, [0]⟩ rfl,
   (release_on_normal_completion ⟨true, true, 30, [Except.error ()]⟩ 1).2 rfl⟩

/-- C4 counterexample: with an existing, openable source whose first frame
makes the detector raise, `analyze_video` propagates `DetectorFailure`
without releasing the capture — the claim that the capture is released on
every exit path fails on this input. -/
theorem release_counterexample :
    (analyze_video ⟨true, true, 30, [Except.error ()]⟩ 1).1
      = Except.error AnalyzeError.detectorFailure ∧
    (analyze_video ⟨true, true, 30, [Except.error ()]⟩ 1).2 ≠ false := by
  exact ⟨rfl, by decide⟩

/-- C6 counterexample: the zero-processed-frames fallback never yields a
sole representative frame.  Frame index 0 is a multiple of every sampling
interval, so zero processed frames implies the source yields no frames at
all; the fallback re-open then reads nothing, the detector is never run,
and the representative list is empty (length 0, not 1) — here on an
existing, openable 30 fps source with no frames. -/
theorem fallback_no_sole_frame :
    ∃ st : VideoStatsR,
      (analyze_video ⟨true, true, 30, []⟩ 1).1 = Except.ok st ∧ st.frames.length = 0 :=
  ⟨⟨0, 0, false, []⟩, rfl, rfl⟩

/-- C7: for native fps > 0 and a positive target rate, the sampler uses
`interval = max(1, floor(fps / rate))` and processes exactly the frames
whose 0-based index is a multiple of the interval, in ascending order (the
saved-frame list of the loop is that index list); the resulting people and
cars values are the maxima over the processed frames of the per-frame
counts of detections with confidence ≥ 0.5 of the person and vehicle
classes, and `weapon_present` is the OR over those frames of the presence
of a qualifying weapon-class detection. -/
theorem sampling_and_maxima (dets : List (List Detection)) (fps : ℚ) (rate : Int)
    (hfps : 0 < fps) (hrate : 0 < rate) :
    ∃ st : VideoStatsR,
      (analyze_video ⟨true, true, fps, dets.map Except.ok⟩ rate).1 = Except.ok st ∧
      st.people = listMax ((dets.enum.filter fun p =>
          p.1 % (max 1 ⌊fps / (rate : ℚ)⌋).toNat = 0).map fun p => specPeopleCount p.2) ∧
      st.cars = listMax ((dets.enum.filter fun p =>
          p.1 % (max 1 ⌊fps / (rate : ℚ)⌋).toNat = 0).map fun p => specCarCount p.2) ∧
      st.weapon_present = ((dets.enum.filter fun p =>
          p.1 % (max 1 ⌊fps / (rate : ℚ)⌋).toNat = 0).any fun p => specWeaponFlag p.2) ∧
      runLoop ((max 1 ⌊fps / (rate : ℚ)⌋).toNat) 0 ⟨0, 0, false, []⟩ (dets.map Except.ok)
        = Except.ok ⟨st.people, st.cars, st.weapon_present,
            (List.range dets.length).filter fun i =>
              i % (max 1 ⌊fps / (rate : ℚ)⌋).toNat = 0⟩ := by
  have hrq : (0 : ℚ) < (rate : ℚ) := by exact_mod_cast hrate
  have hq : pyTruncQ (fps / (rate : ℚ)) = ⌊fps / (rate : ℚ)⌋ :=
    pyTruncQ_eq_floor _ (div_nonneg hfps.le hrq.le)
  have h := analyze_video_map_ok dets fps rate hfps
  rw [hq] at h
  refine ⟨_, by rw [h], rfl, rfl, rfl, ?_⟩
  rw [runLoop_map_ok ((max 1 ⌊fps / (rate : ℚ)⌋).toNat) dets 0]
  simp [procFrames_map_fst]

theorem sampling_and_maxima_witness :
    ∃ st : VideoStatsR,
      (analyze_video ⟨true, true, 2, [[Detection.mk 0 (0.9 : ℚ)]].map Except.ok⟩ 1).1
        = Except.ok st :=
  (sampling_and_maxima [[Detection.mk 0 (0.9 : ℚ)]] 2 1 (by norm_num) (by norm_num)).elim
    fun st h => ⟨st, h.1⟩

/-- Helper evaluation: at fps = 1 and rate = 1 the sampling interval is
1. -/
theorem interval_at_rate_one :
    (max 1 (pyTruncQ ((1 : ℚ) / ((1 : Int) : ℚ)))).toNat = 1 := by
  have h : ((1 : ℚ) / ((1 : Int) : ℚ)) = 1 := by norm_num
  rw [h]
  have h2 : pyTruncQ 1 = 1 := by
    rw [pyTruncQ, Rat.num_one, Rat.den_one]
    decide
  rw [h2]
  decide

/-- C6 (amended): after processing, `analyze_video` keeps all saved frames
when there are at most 3, and exactly the first, the one at index `n / 2`
and the last when there are more (10 processed frames yield indices
0, 5, 9); when zero frames were processed the source had no frames, the
fallback re-open reads nothing, and the representative list is empty with
`max_people`/`max_cars`/`weapon_present` left at 0/0/false. -/
theorem representative_selection (dets : List (List Detection)) (fps : ℚ) (rate : Int)
    (hfps : 0 < fps) :
    ∃ st : VideoStatsR,
      (analyze_video ⟨true, true, fps, dets.map Except.ok⟩ rate).1 = Except.ok st ∧
      st.frames = specSelect ((List.range dets.length).filter fun i =>
          i % (max 1 (pyTruncQ (fps / (rate : ℚ)))).toNat = 0) ∧
      (dets = [] → st.frames = [] ∧ st.people = 0 ∧ st.cars = 0 ∧ st.weapon_present = false) ∧
      (∃ st10 : VideoStatsR,
        (analyze_video
            ⟨true, true, 1, (List.replicate 10 ([] : List Detection)).map Except.ok⟩ 1).1
          = Except.ok st10 ∧ st10.frames = [0, 5, 9]) := by
  have h := analyze_video_map_ok dets fps rate hfps
  have h10 := analyze_video_map_ok (List.replicate 10 ([] : List Detection)) 1 1 one_pos
  refine ⟨_, by rw [h], ?_, ?_, ⟨_, by rw [h10], ?_⟩⟩
  · show specSelect _ = _
    rw [procFrames_map_fst]
  · intro hnil
    subst hnil
    exact ⟨rfl, rfl, rfl, rfl⟩
  · show specSelect _ = _
    rw [procFrames_map_fst]
    simp only [interval_at_rate_one, List.length_replicate]
    decide

theorem representative_selection_witness :
    ∃ st : VideoStatsR,
      (analyze_video ⟨true, true, 30, ([] : List (List Detection)).map Except.ok⟩ 1).1
        = Except.ok st ∧
      (st.frames = [] ∧ st.people = 0 ∧ st.cars = 0 ∧ st.weapon_present = false) :=
  (representative_selection [] 30 1 (by norm_num)).elim
    fun st h => ⟨st, h.1, h.2.2.1 rfl⟩
